import Mathlib

/-!
Verification of the tip-flow UI component
(src/work-tip/src/app/tip/components/tip-content.tsx).

The component is embedded shallowly:

* JavaScript numbers are modelled by the type JSNum: either NaN or an exact
  numeric value (a rational).  The only numeric operations the component
  performs on them are comparison, truthiness coalescing with 0, and passing
  them along unchanged, so this model is exact for the code at hand.
* React state (tokenBalance, loading, error) is the record CompState; the
  useRef in-flight flag is carried alongside it in FetchState.
* The external collaborators (backend actions, wallet signer, RPC call,
  transaction deserialisation) are an explicit environment of functions
  returning Except, mirroring fulfilled/rejected promises.
* Side effects (console.log, the collaborator calls, toasts) are recorded in
  an event trace returned by the handlers, so ordering and multiplicity of
  effects are part of the results of the handler functions.
-/

/-- A JavaScript number: NaN or an exact value.  The component only ever
compares numbers and tests truthiness, so exact rationals suffice. -/
inductive JSNum where
  | nan : JSNum
  | num : ℚ → JSNum
deriving DecidableEq, Repr

/-- JavaScript falsiness of a number: NaN and 0 are falsy. -/
def JSNum.falsy : JSNum → Bool
  | .nan => true
  | .num q => q == 0

/-- JavaScript strict comparison a > b: false whenever either side is NaN. -/
def jsGt : JSNum → JSNum → Bool
  | .num a, .num b => a > b
  | _, _ => false

/-- JavaScript comparison a <= b: false whenever either side is NaN. -/
def jsLe : JSNum → JSNum → Bool
  | .num a, .num b => a ≤ b
  | _, _ => false

/-- JavaScript `n || 0` on a number: falsy (NaN or 0) collapses to 0. -/
def jsOrZero (n : JSNum) : JSNum :=
  if n.falsy then .num 0 else n

/-- Truthiness of a `string | null` value: null and the empty string are
falsy. -/
def strTruthy : Option String → Bool
  | none => false
  | some s => s != ""

/-- JavaScript `v || undefined` on a `string | undefined` value, as used for
the receiverVault prop: the empty string collapses to undefined. -/
def jsOrUndefined : Option String → Option String
  | none => none
  | some s => if s == "" then none else some s

/-- The TokenBalance record stored by the component (type TokenBalance in the
source): mint, amount (tokenAmount.uiAmount) and decimals. -/
structure TokenBalance where
  mint : String
  amount : JSNum
  decimals : JSNum
deriving DecidableEq, Repr

/-- The React-managed component state: tokenBalance, loading, error. -/
structure CompState where
  tokenBalance : Option TokenBalance
  loading : Bool
  error : Option String
deriving DecidableEq, Repr

/-- The requested amount, `const amount = Number(searchParams.get("amount") || 0)`:
a missing or empty parameter yields 0, otherwise the string is parsed by
Number(), passed in as jsNumber since its full grammar is outside the
component. -/
def amountFromParam (jsNumber : String → JSNum) : Option String → JSNum
  | none => .num 0
  | some s => if s == "" then .num 0 else jsNumber s

/-- The coalesced balance, `const balanceAmount = Number(tokenBalance?.amount) || 0`:
Number(undefined) is NaN when no balance is stored, and `|| 0` collapses a
falsy (NaN or 0) value to 0. -/
def balanceAmount (tb : Option TokenBalance) : JSNum :=
  jsOrZero (match tb with
    | none => .nan
    | some b => b.amount)

/-- The affordability predicate hasBalance():
`return amount > balanceAmount ? false : true`. -/
def hasBalance (amount : JSNum) (tb : Option TokenBalance) : Bool :=
  if jsGt amount (balanceAmount tb) then false else true

/-- JavaScript truthiness of the `string | null` error state, as tested by
`!!error`. -/
def errTruthy : Option String → Bool
  | none => false
  | some s => s != ""

/-- The disabled flag of the submit button:
`disabled={!!error || loading || !hasBalance()}`. -/
def submitDisabled (amount : JSNum) (s : CompState) : Bool :=
  errTruthy s.error || s.loading || !hasBalance amount s.tokenBalance

/-- The balance the spec compares against, following the words of the claim: the
fetched balance amount, where a missing or null balance counts as 0.  Used
only to state the affordability claim; the code-side value is balanceAmount. -/
def specBalance (tb : Option TokenBalance) : JSNum :=
  match tb with
  | none => .num 0
  | some b => b.amount

/-! ## Balance fetch (fetchTokenBalance) -/

/-- One parsed token account as returned by
getParsedTokenAccountsByOwner: `account.account.data.parsed.info.mint` and
`...info.tokenAmount.{uiAmount, decimals}` are the only fields read. -/
structure TokenAccountInfo where
  mint : String
  uiAmount : JSNum
  decimals : JSNum
deriving DecidableEq, Repr

/-- The hook values fetchTokenBalance closes over: publicKey (its string
form), connected, and whether a connection object is present. -/
structure FetchCtx where
  publicKey : Option String
  connected : Bool
  connection : Bool
deriving DecidableEq, Repr

/-- Component state together with the isFetchingRef in-flight flag. -/
structure FetchState where
  isFetching : Bool
  comp : CompState
deriving DecidableEq, Repr

def tokenNotFoundMsg : String := "Required token not found in wallet."

def fetchErrorMsg : String := "Error fetching token balance"

/-- Shallow embedding of fetchTokenBalance.  The RPC call is passed in as its
outcome rpc (fulfilled with the account list, or rejected).  The returned
Bool records whether the RPC call was performed; the returned FetchState is
the state after the handler finishes (the finally block clears the flag and
loading on every path through the try block). -/
def fetchTokenBalance (mintAddress : String) (ctx : FetchCtx)
    (rpc : Except Unit (List TokenAccountInfo)) (st : FetchState) :
    Bool × FetchState :=
  if st.isFetching || ctx.publicKey.isNone || !ctx.connected || !ctx.connection then
    (false, st)
  else
    match rpc with
    | .error _ =>
        (true, { isFetching := false
                 comp := { st.comp with
                           loading := false
                           error := some fetchErrorMsg } })
    | .ok accounts =>
        match accounts.find? (fun a => a.mint == mintAddress) with
        | some acc =>
            (true, { isFetching := false
                     comp := { tokenBalance := some { mint := acc.mint
                                                      amount := acc.uiAmount
                                                      decimals := acc.decimals }
                               loading := false
                               error := none } })
        | none =>
            (true, { isFetching := false
                     comp := { tokenBalance := none
                               loading := false
                               error := some tokenNotFoundMsg } })

/-! ## Submit flow (onSubmit) -/

/-- An opaque deserialised transaction (Transaction.from result). -/
structure Tx where
  repr : String
deriving DecidableEq, Repr

/-- An opaque signed transaction; serializedBase64 is the value of
`signedTransaction.serialize().toString("base64")`. -/
structure SignedTx where
  serializedBase64 : String
deriving DecidableEq, Repr

/-- The token field of the deposit request. -/
structure TokenArg where
  mintAddress : String
  amount : JSNum
deriving DecidableEq, Repr

/-- The request passed to the deposit backend action. -/
structure DepositRequest where
  payer : String
  vaultId : Option String
  strategy : String
  network : String
  amount : JSNum
  token : TokenArg
deriving DecidableEq, Repr

/-- The result of the deposit backend action. -/
structure DepositResult where
  serializedTransaction : String
  vaultId : String
  transactionId : String
deriving DecidableEq, Repr

/-- The request passed to the execute backend action. -/
structure ExecuteRequest where
  vaultId : String
  transactionId : String
  signedTransaction : String
deriving DecidableEq, Repr

/-- The result of the execute backend action. -/
structure ExecuteResult where
  txHash : String
deriving DecidableEq, Repr

/-- The request passed to the depositInDatabase backend action. -/
structure DbRequest where
  amount : JSNum
  vaultId : String
  discordUserId : String
deriving DecidableEq, Repr

/-- Observable effects of onSubmit, in order: console logs, the four
collaborator calls, and the toasts. -/
inductive UiEvent where
  | log (msg : String)
  | callDeposit (req : DepositRequest)
  | callSign (tx : Tx)
  | callExecute (req : ExecuteRequest)
  | callDepositInDatabase (req : DbRequest)
  | toastSuccess (receiverUsername : Option String) (link : String)
  | toastError (msg : String)
deriving DecidableEq, Repr

def submitErrorMsg : String := "An error occurred on transaction. Try again."

/-- The values onSubmit closes over: hook state, query parameters and the
receiverVault prop. -/
structure SubmitCtx where
  connection : Bool
  publicKey : Option String
  receiverVault : Option String
  amount : JSNum
  receiverUsername : Option String
  receiverDiscordId : Option String
deriving Repr

/-- The collaborators onSubmit awaits, each modelled as a function returning
a fulfilled (.ok) or rejected (.error) outcome.  signTransaction is none when
the wallet exposes no signer. -/
structure SubmitEnv where
  deposit : DepositRequest → Except Unit DepositResult
  transactionFrom : String → Except Unit Tx
  signTransaction : Option (Tx → Except Unit SignedTx)
  execute : ExecuteRequest → Except Unit ExecuteResult
  depositInDatabase : DbRequest → Except Unit Unit

/-- The deposit request built in onSubmit. -/
def mkDepositRequest (mintAddress : String) (ctx : SubmitCtx) (pk : String) :
    DepositRequest :=
  { payer := pk
    vaultId := jsOrUndefined ctx.receiverVault
    strategy := "blockhash"
    network := "mainnet"
    amount := ctx.amount
    token := { mintAddress := mintAddress, amount := ctx.amount } }

/-- The execute request built in onSubmit from the deposit result and the
signed transaction. -/
def mkExecuteRequest (dRes : DepositResult) (sTx : SignedTx) : ExecuteRequest :=
  { vaultId := dRes.vaultId
    transactionId := dRes.transactionId
    signedTransaction := sTx.serializedBase64 }

/-- The depositInDatabase request built in onSubmit. -/
def mkDbRequest (amount : JSNum) (dRes : DepositResult) (discordUserId : String) :
    DbRequest :=
  { amount := amount, vaultId := dRes.vaultId, discordUserId := discordUserId }

def solscanLink (txHash : String) : String := "https://solscan.io/tx/" ++ txHash

/-- The try/catch body of onSubmit, entered after both precondition guards
pass.  Every exit of the try block (the catch arm included) sets loading to
false; the catch arm emits the single generic failure toast. -/
def onSubmitTry (mintAddress : String) (ctx : SubmitCtx) (env : SubmitEnv)
    (pk : String) (sign : Tx → Except Unit SignedTx) (discordUserId : String)
    (s : CompState) : List UiEvent × CompState :=
  let req := mkDepositRequest mintAddress ctx pk
  match env.deposit req with
  | .error _ =>
      ([.callDeposit req, .toastError submitErrorMsg], { s with loading := false })
  | .ok dRes =>
      match env.transactionFrom dRes.serializedTransaction with
      | .error _ =>
          ([.callDeposit req, .toastError submitErrorMsg], { s with loading := false })
      | .ok tx =>
          match sign tx with
          | .error _ =>
              ([.callDeposit req, .callSign tx, .toastError submitErrorMsg],
               { s with loading := false })
          | .ok sTx =>
              let eReq := mkExecuteRequest dRes sTx
              match env.execute eReq with
              | .error _ =>
                  ([.callDeposit req, .callSign tx, .callExecute eReq,
                    .toastError submitErrorMsg], { s with loading := false })
              | .ok eRes =>
                  let dbReq := mkDbRequest ctx.amount dRes discordUserId
                  match env.depositInDatabase dbReq with
                  | .error _ =>
                      ([.callDeposit req, .callSign tx, .callExecute eReq,
                        .callDepositInDatabase dbReq, .toastError submitErrorMsg],
                       { s with loading := false })
                  | .ok _ =>
                      ([.callDeposit req, .callSign tx, .callExecute eReq,
                        .callDepositInDatabase dbReq,
                        .toastSuccess ctx.receiverUsername (solscanLink eRes.txHash)],
                       { s with loading := false })

/-- Shallow embedding of onSubmit.  The two guards mirror
`!connection || !publicKey || !signTransaction` and `!receiverDiscordId`
(null or empty string); on a guard hit only a message is logged and the
state is returned untouched. -/
def onSubmit (mintAddress : String) (ctx : SubmitCtx) (env : SubmitEnv)
    (s : CompState) : List UiEvent × CompState :=
  if !ctx.connection || ctx.publicKey.isNone || env.signTransaction.isNone then
    ([.log "Please connect your wallet."], s)
  else if !strTruthy ctx.receiverDiscordId then
    ([.log "Receiver Id is required."], s)
  else
    onSubmitTry mintAddress ctx env
      (ctx.publicKey.getD "")
      (env.signTransaction.getD (fun _ => .error ()))
      (ctx.receiverDiscordId.getD "")
      s

/-! ## Concrete sample values used by the witnesses -/

def sampleState : CompState :=
  { tokenBalance := none, loading := false, error := none }

def loadingState : CompState :=
  { tokenBalance := none, loading := true, error := none }

def sampleCtx : SubmitCtx :=
  { connection := true
    publicKey := some "PK"
    receiverVault := none
    amount := .num 5
    receiverUsername := some "alice"
    receiverDiscordId := some "D1" }

def nanCtx : SubmitCtx := { sampleCtx with amount := .nan }

def disconnectedCtx : SubmitCtx := { sampleCtx with connection := false }

def sampleSign : Tx → Except Unit SignedTx :=
  fun t => .ok { serializedBase64 := t.repr ++ ".signed" }

def sampleEnv : SubmitEnv :=
  { deposit := fun _ =>
      .ok { serializedTransaction := "SER", vaultId := "V1", transactionId := "T1" }
    transactionFrom := fun str => .ok { repr := str }
    signTransaction := some sampleSign
    execute := fun _ => .ok { txHash := "HASH" }
    depositInDatabase := fun _ => .ok () }

def depositFailEnv : SubmitEnv := { sampleEnv with deposit := fun _ => .error () }

def sampleFetchCtx : FetchCtx :=
  { publicKey := some "PK", connected := true, connection := true }

def sampleFetchState : FetchState := { isFetching := false, comp := sampleState }

def fetchingState : FetchState := { isFetching := true, comp := sampleState }

def otherAccount : TokenAccountInfo :=
  { mint := "OTHER", uiAmount := .num 1, decimals := .num 6 }

def usdcAccount : TokenAccountInfo :=
  { mint := "MINT", uiAmount := .num 12, decimals := .num 6 }

/-! ## Helper lemmas -/

theorem jsGt_nan_left (x : JSNum) : jsGt JSNum.nan x = false := by
  cases x <;> rfl

theorem hasBalance_nan (tb : Option TokenBalance) :
    hasBalance JSNum.nan tb = true := by
  simp [hasBalance, jsGt_nan_left]

/-! ## C3: affordability predicate -/

/-- C3 counterexample: at the concrete state with a NaN parsed amount (as
produced by a non-numeric amount parameter) and no fetched balance,
hasBalance() returns true although the requested amount is not less than or
equal to the balance, so the claimed equivalence fails. -/
theorem hasBalance_claim_false_at_nan :
    ¬ (hasBalance JSNum.nan none = true ↔
        jsLe JSNum.nan (specBalance none) = true) := by
  decide

/-- C3 (amended): for every component state in which the parsed amount is an
actual number (not NaN) and the stored balance amount, when a balance is
present, is an actual number, hasBalance() returns true exactly when the
requested amount is less than or equal to the balance amount, a missing
balance counting as 0. -/
theorem hasBalance_iff_le (a : ℚ) (tb : Option TokenBalance)
    (hb : specBalance tb ≠ JSNum.nan) :
    (hasBalance (JSNum.num a) tb = true ↔
      jsLe (JSNum.num a) (specBalance tb) = true) := by
  cases tb with
  | none =>
      rcases le_or_lt a 0 with h | h
      · simp [hasBalance, balanceAmount, jsOrZero, JSNum.falsy, jsGt, jsLe,
          specBalance, h, not_lt.mpr h]
      · simp [hasBalance, balanceAmount, jsOrZero, JSNum.falsy, jsGt, jsLe,
          specBalance, h, not_le.mpr h]
  | some b =>
      cases hba : b.amount with
      | nan => exact absurd (by simp [specBalance, hba]) hb
      | num q =>
          rcases le_or_lt a q with h | h <;>
            by_cases hq : q = 0 <;>
              simp [hasBalance, balanceAmount, jsOrZero, JSNum.falsy, jsGt, jsLe,
                specBalance, hba, hq, h, not_lt.mpr, not_le.mpr]

/-- C3 witness: the amended equivalence evaluated at amount 1 with no stored
balance. -/
theorem hasBalance_iff_le_witness :
    (hasBalance (JSNum.num 1) none = true ↔
      jsLe (JSNum.num 1) (specBalance none) = true) :=
  hasBalance_iff_le 1 none (by decide)

/-! ## C4: submit button disabled flag -/

/-- C4: the disabled flag of the submit button is true exactly when the error
state is set, or loading is true, or hasBalance() is false.  The hypothesis
excludes an empty-string error, which JavaScript truthiness would treat as
unset; the component only ever stores null or one of its two non-empty
messages, so every reachable state satisfies it. -/
theorem submitDisabled_iff (amount : JSNum) (s : CompState)
    (h : s.error ≠ some "") :
    (submitDisabled amount s = true ↔
      (s.error ≠ none ∨ s.loading = true ∨
        hasBalance amount s.tokenBalance = false)) := by
  cases herr : s.error with
  | none =>
      cases hl : s.loading <;> cases hbal : hasBalance amount s.tokenBalance <;>
        simp [submitDisabled, errTruthy, herr, hl, hbal]
  | some m =>
      have hm : m ≠ "" := by
        intro e
        exact h (by rw [herr, e])
      simp [submitDisabled, errTruthy, herr, hm]

/-- C4 witness: the equivalence evaluated at amount 0 in the initial state
(no balance, not loading, no error). -/
theorem submitDisabled_iff_witness :
    (submitDisabled (JSNum.num 0) sampleState = true ↔
      (sampleState.error ≠ none ∨ sampleState.loading = true ∨
        hasBalance (JSNum.num 0) sampleState.tokenBalance = false)) :=
  submitDisabled_iff (JSNum.num 0) sampleState (by decide)

/-! ## C6: balance fetch reentrancy guard -/

/-- C6: while the in-flight flag is set, or while a wallet/connection
precondition is unmet, fetchTokenBalance returns immediately without
performing the RPC call and without changing any state; and whenever the
fetch is performed the flag is cleared on every exit path, so the flag is
set for exactly the duration of one fetch and at most one fetch is in
flight at a time. -/
theorem fetchTokenBalance_guard (mintAddress : String) (ctx : FetchCtx)
    (rpc : Except Unit (List TokenAccountInfo)) (st : FetchState) :
    ((st.isFetching = true ∨ ctx.publicKey = none ∨ ctx.connected = false ∨
        ctx.connection = false) →
      fetchTokenBalance mintAddress ctx rpc st = (false, st)) ∧
    (st.isFetching = false → ctx.publicKey.isSome = true → ctx.connected = true →
      ctx.connection = true →
      (fetchTokenBalance mintAddress ctx rpc st).1 = true ∧
        ((fetchTokenBalance mintAddress ctx rpc st).2).isFetching = false) := by
  constructor
  · intro h
    rcases h with h | h | h | h <;> simp [fetchTokenBalance, h]
  · intro h1 h2 h3 h4
    rw [Option.isSome_iff_exists] at h2
    obtain ⟨pk, hpk⟩ := h2
    cases rpc with
    | error e => simp [fetchTokenBalance, h1, h3, h4, hpk]
    | ok accounts =>
        cases hfind : accounts.find? (fun a => a.mint == mintAddress) with
        | none => simp [fetchTokenBalance, h1, h3, h4, hpk, hfind]
        | some acc => simp [fetchTokenBalance, h1, h3, h4, hpk, hfind]

/-- C6 witness: with the in-flight flag set, an invocation with every other
precondition satisfied leaves the state untouched and performs no fetch. -/
theorem fetchTokenBalance_guard_witness :
    fetchTokenBalance "MINT" sampleFetchCtx (Except.ok [usdcAccount])
      fetchingState = (false, fetchingState) :=
  (fetchTokenBalance_guard "MINT" sampleFetchCtx (Except.ok [usdcAccount])
    fetchingState).1 (Or.inl rfl)

/-! ## C7 and C8: fetch result handling -/

/-- C7: when the fetch completes and no returned token account has the
configured mint address, the stored balance is cleared to null, the error
state is set to the token-not-found message, and the submit button is
disabled whatever the requested amount. -/
theorem fetchTokenBalance_no_match (mintAddress : String) (ctx : FetchCtx)
    (st : FetchState) (accounts : List TokenAccountInfo)
    (h1 : st.isFetching = false) (h2 : ctx.publicKey.isSome = true)
    (h3 : ctx.connected = true) (h4 : ctx.connection = true)
    (hnone : ∀ a ∈ accounts, a.mint ≠ mintAddress) :
    ((fetchTokenBalance mintAddress ctx (Except.ok accounts) st).2).comp.tokenBalance
        = none ∧
    ((fetchTokenBalance mintAddress ctx (Except.ok accounts) st).2).comp.error
        = some tokenNotFoundMsg ∧
    (∀ amount, submitDisabled amount
        ((fetchTokenBalance mintAddress ctx (Except.ok accounts) st).2).comp
      = true) := by
  rw [Option.isSome_iff_exists] at h2
  obtain ⟨pk, hpk⟩ := h2
  have hfind : accounts.find? (fun a => a.mint == mintAddress) = none := by
    rw [List.find?_eq_none]
    intro a ha
    simpa using hnone a ha
  refine ⟨?_, ?_, ?_⟩ <;>
    simp [fetchTokenBalance, h1, h3, h4, hpk, hfind, submitDisabled, errTruthy,
      tokenNotFoundMsg]

/-- C7 witness: a completed fetch over a single account of a different mint. -/
theorem fetchTokenBalance_no_match_witness :
    ((fetchTokenBalance "MINT" sampleFetchCtx (Except.ok [otherAccount])
        sampleFetchState).2).comp.tokenBalance = none ∧
    ((fetchTokenBalance "MINT" sampleFetchCtx (Except.ok [otherAccount])
        sampleFetchState).2).comp.error = some tokenNotFoundMsg ∧
    (∀ amount, submitDisabled amount
        ((fetchTokenBalance "MINT" sampleFetchCtx (Except.ok [otherAccount])
          sampleFetchState).2).comp = true) :=
  fetchTokenBalance_no_match "MINT" sampleFetchCtx sampleFetchState
    [otherAccount] rfl rfl rfl rfl (by decide)

/-- C8: when the fetch completes and the account the code selects (the first
whose mint equals the configured mint address) exists, the stored balance
record copies that account: its mint, its tokenAmount.uiAmount as amount and
its tokenAmount.decimals as decimals, and the error state is cleared. -/
theorem fetchTokenBalance_match (mintAddress : String) (ctx : FetchCtx)
    (st : FetchState) (accounts : List TokenAccountInfo) (acc : TokenAccountInfo)
    (h1 : st.isFetching = false) (h2 : ctx.publicKey.isSome = true)
    (h3 : ctx.connected = true) (h4 : ctx.connection = true)
    (hfind : accounts.find? (fun a => a.mint == mintAddress) = some acc) :
    ((fetchTokenBalance mintAddress ctx (Except.ok accounts) st).2).comp =
      { tokenBalance := some { mint := acc.mint
                               amount := acc.uiAmount
                               decimals := acc.decimals }
        loading := false
        error := none } := by
  rw [Option.isSome_iff_exists] at h2
  obtain ⟨pk, hpk⟩ := h2
  simp [fetchTokenBalance, h1, h3, h4, hpk, hfind]

/-- C8 witness: a completed fetch whose second account carries the configured
mint. -/
theorem fetchTokenBalance_match_witness :
    ((fetchTokenBalance "MINT" sampleFetchCtx
        (Except.ok [otherAccount, usdcAccount]) sampleFetchState).2).comp =
      { tokenBalance := some { mint := usdcAccount.mint
                               amount := usdcAccount.uiAmount
                               decimals := usdcAccount.decimals }
        loading := false
        error := none } :=
  fetchTokenBalance_match "MINT" sampleFetchCtx sampleFetchState
    [otherAccount, usdcAccount] usdcAccount rfl rfl rfl rfl (by decide)

/-! ## C1: successful submit sequence -/

/-- C1: when all preconditions hold and every step succeeds, onSubmit performs
exactly the four steps deposit, sign, execute, depositInDatabase, in that
order, each request built from the result of the previous step (the
transaction signed is the deserialised deposit result, the execute request
carries the vaultId/transactionId of the deposit result and the serialised
signed transaction, the database record carries the vaultId of the deposit
result), and then emits exactly one success toast carrying the receiver
username and the solscan link built from the returned transaction hash. -/
theorem onSubmit_success_sequence (mintAddress : String) (ctx : SubmitCtx)
    (env : SubmitEnv) (s : CompState) (pk : String)
    (sign : Tx → Except Unit SignedTx) (dRes : DepositResult) (tx : Tx)
    (sTx : SignedTx) (eRes : ExecuteResult)
    (hconn : ctx.connection = true)
    (hpk : ctx.publicKey = some pk)
    (hsign : env.signTransaction = some sign)
    (hdid : strTruthy ctx.receiverDiscordId = true)
    (hdep : env.deposit (mkDepositRequest mintAddress ctx pk) = .ok dRes)
    (htx : env.transactionFrom dRes.serializedTransaction = .ok tx)
    (hsg : sign tx = .ok sTx)
    (hex : env.execute (mkExecuteRequest dRes sTx) = .ok eRes)
    (hdb : env.depositInDatabase
        (mkDbRequest ctx.amount dRes (ctx.receiverDiscordId.getD "")) = .ok ()) :
    onSubmit mintAddress ctx env s =
      ([UiEvent.callDeposit (mkDepositRequest mintAddress ctx pk),
        UiEvent.callSign tx,
        UiEvent.callExecute (mkExecuteRequest dRes sTx),
        UiEvent.callDepositInDatabase
          (mkDbRequest ctx.amount dRes (ctx.receiverDiscordId.getD "")),
        UiEvent.toastSuccess ctx.receiverUsername (solscanLink eRes.txHash)],
       { s with loading := false }) := by
  simp [onSubmit, onSubmitTry, hconn, hpk, hsign, hdid, hdep, htx, hsg, hex, hdb]

/-- C1 witness: the full success trace at a concrete context and environment. -/
theorem onSubmit_success_sequence_witness :
    onSubmit "MINT" sampleCtx sampleEnv sampleState =
      ([UiEvent.callDeposit (mkDepositRequest "MINT" sampleCtx "PK"),
        UiEvent.callSign { repr := "SER" },
        UiEvent.callExecute
          (mkExecuteRequest
            { serializedTransaction := "SER", vaultId := "V1", transactionId := "T1" }
            { serializedBase64 := "SER.signed" }),
        UiEvent.callDepositInDatabase
          (mkDbRequest (JSNum.num 5)
            { serializedTransaction := "SER", vaultId := "V1", transactionId := "T1" }
            "D1"),
        UiEvent.toastSuccess (some "alice") (solscanLink "HASH")],
       { sampleState with loading := false }) :=
  onSubmit_success_sequence "MINT" sampleCtx sampleEnv sampleState "PK"
    sampleSign
    { serializedTransaction := "SER", vaultId := "V1", transactionId := "T1" }
    { repr := "SER" } { serializedBase64 := "SER.signed" } { txHash := "HASH" }
    rfl rfl rfl (by decide) rfl rfl rfl rfl rfl

/-! ## C2: failure at any submit step -/

/-- C2: when the preconditions hold and one of the awaited steps rejects
(deposit, the deserialisation of its result, sign, execute, or
depositInDatabase), onSubmit performs no step after the failing one, emits
exactly one generic failure toast and no success toast, and returns with
loading false. -/
theorem onSubmit_step_failure (mintAddress : String) (ctx : SubmitCtx)
    (env : SubmitEnv) (s : CompState) (pk : String)
    (sign : Tx → Except Unit SignedTx)
    (hconn : ctx.connection = true)
    (hpk : ctx.publicKey = some pk)
    (hsign : env.signTransaction = some sign)
    (hdid : strTruthy ctx.receiverDiscordId = true) :
    (env.deposit (mkDepositRequest mintAddress ctx pk) = .error () →
      onSubmit mintAddress ctx env s =
        ([UiEvent.callDeposit (mkDepositRequest mintAddress ctx pk),
          UiEvent.toastError submitErrorMsg], { s with loading := false })) ∧
    (∀ dRes, env.deposit (mkDepositRequest mintAddress ctx pk) = .ok dRes →
      env.transactionFrom dRes.serializedTransaction = .error () →
      onSubmit mintAddress ctx env s =
        ([UiEvent.callDeposit (mkDepositRequest mintAddress ctx pk),
          UiEvent.toastError submitErrorMsg], { s with loading := false })) ∧
    (∀ dRes tx, env.deposit (mkDepositRequest mintAddress ctx pk) = .ok dRes →
      env.transactionFrom dRes.serializedTransaction = .ok tx →
      sign tx = .error () →
      onSubmit mintAddress ctx env s =
        ([UiEvent.callDeposit (mkDepositRequest mintAddress ctx pk),
          UiEvent.callSign tx,
          UiEvent.toastError submitErrorMsg], { s with loading := false })) ∧
    (∀ dRes tx sTx,
      env.deposit (mkDepositRequest mintAddress ctx pk) = .ok dRes →
      env.transactionFrom dRes.serializedTransaction = .ok tx →
      sign tx = .ok sTx →
      env.execute (mkExecuteRequest dRes sTx) = .error () →
      onSubmit mintAddress ctx env s =
        ([UiEvent.callDeposit (mkDepositRequest mintAddress ctx pk),
          UiEvent.callSign tx,
          UiEvent.callExecute (mkExecuteRequest dRes sTx),
          UiEvent.toastError submitErrorMsg], { s with loading := false })) ∧
    (∀ dRes tx sTx eRes,
      env.deposit (mkDepositRequest mintAddress ctx pk) = .ok dRes →
      env.transactionFrom dRes.serializedTransaction = .ok tx →
      sign tx = .ok sTx →
      env.execute (mkExecuteRequest dRes sTx) = .ok eRes →
      env.depositInDatabase
          (mkDbRequest ctx.amount dRes (ctx.receiverDiscordId.getD "")) = .error () →
      onSubmit mintAddress ctx env s =
        ([UiEvent.callDeposit (mkDepositRequest mintAddress ctx pk),
          UiEvent.callSign tx,
          UiEvent.callExecute (mkExecuteRequest dRes sTx),
          UiEvent.callDepositInDatabase
            (mkDbRequest ctx.amount dRes (ctx.receiverDiscordId.getD "")),
          UiEvent.toastError submitErrorMsg], { s with loading := false })) := by
  refine ⟨?_, ?_, ?_, ?_, ?_⟩
  · intro hdep
    simp [onSubmit, onSubmitTry, hconn, hpk, hsign, hdid, hdep]
  · intro dRes hdep htx
    simp [onSubmit, onSubmitTry, hconn, hpk, hsign, hdid, hdep, htx]
  · intro dRes tx hdep htx hsg
    simp [onSubmit, onSubmitTry, hconn, hpk, hsign, hdid, hdep, htx, hsg]
  · intro dRes tx sTx hdep htx hsg hex
    simp [onSubmit, onSubmitTry, hconn, hpk, hsign, hdid, hdep, htx, hsg, hex]
  · intro dRes tx sTx eRes hdep htx hsg hex hdb
    simp [onSubmit, onSubmitTry, hconn, hpk, hsign, hdid, hdep, htx, hsg, hex, hdb]

/-- C2 witness: with a rejecting deposit action, the trace is the deposit call
followed by the single failure toast, and loading ends false. -/
theorem onSubmit_step_failure_witness :
    onSubmit "MINT" sampleCtx depositFailEnv sampleState =
      ([UiEvent.callDeposit (mkDepositRequest "MINT" sampleCtx "PK"),
        UiEvent.toastError submitErrorMsg],
       { sampleState with loading := false }) :=
  (onSubmit_step_failure "MINT" sampleCtx depositFailEnv sampleState "PK"
    sampleSign rfl rfl rfl (by decide)).1 rfl

/-! ## C5: precondition failures -/

/-- C5: when a precondition fails, onSubmit only logs a message: the trace
holds exactly that log entry (no collaborator call, no toast) and the
component state, loading included, is returned unchanged. -/
theorem onSubmit_precondition_noop (mintAddress : String) (ctx : SubmitCtx)
    (env : SubmitEnv) (s : CompState) :
    ((ctx.connection = false ∨ ctx.publicKey = none ∨
        env.signTransaction = none) →
      onSubmit mintAddress ctx env s =
        ([UiEvent.log "Please connect your wallet."], s)) ∧
    (strTruthy ctx.receiverDiscordId = false →
      ctx.connection = true → ctx.publicKey.isSome = true →
      env.signTransaction.isSome = true →
      onSubmit mintAddress ctx env s =
        ([UiEvent.log "Receiver Id is required."], s)) := by
  constructor
  · intro h
    rcases h with h | h | h <;> simp [onSubmit, h]
  · intro hdid hconn hpk hsign
    simp [onSubmit, hdid, hconn, Option.isNone_eq_false_iff, hpk, hsign,
      Option.isSome_iff_ne_none.mp]

/-- C5 witness: with the wallet disconnected, onSubmit only logs and leaves
the state untouched. -/
theorem onSubmit_precondition_noop_witness :
    onSubmit "MINT" disconnectedCtx sampleEnv sampleState =
      ([UiEvent.log "Please connect your wallet."], sampleState) :=
  (onSubmit_precondition_noop "MINT" disconnectedCtx sampleEnv
    sampleState).1 (Or.inl rfl)

/-! ## C9: no reentrancy guard on submit -/

/-- Every run of the try block starts with the deposit call, whatever the
outcomes of the awaited steps. -/
theorem onSubmitTry_head (mintAddress : String) (ctx : SubmitCtx)
    (env : SubmitEnv) (pk : String) (sign : Tx → Except Unit SignedTx)
    (discordUserId : String) (s : CompState) :
    ((onSubmitTry mintAddress ctx env pk sign discordUserId s).1).head? =
      some (UiEvent.callDeposit (mkDepositRequest mintAddress ctx pk)) := by
  unfold onSubmitTry
  cases hd : env.deposit (mkDepositRequest mintAddress ctx pk) with
  | error e => simp [hd]
  | ok dRes =>
      cases ht : env.transactionFrom dRes.serializedTransaction with
      | error e => simp [hd, ht]
      | ok tx =>
          cases hsg : sign tx with
          | error e => simp [hd, ht, hsg]
          | ok sTx =>
              cases he : env.execute (mkExecuteRequest dRes sTx) with
              | error e => simp [hd, ht, hsg, he]
              | ok eRes =>
                  cases hb : env.depositInDatabase
                      (mkDbRequest ctx.amount dRes discordUserId) with
                  | error e => simp [hd, ht, hsg, he, hb]
                  | ok u => simp [hd, ht, hsg, he, hb]

/-- C9: the early-return guard of onSubmit tests only the connection, the
public key, the signer and the receiver identifier, never loading, so an
invocation made while loading is still true (a previous submit in flight)
still proceeds to the deposit call. -/
theorem onSubmit_no_reentrancy_guard (mintAddress : String) (ctx : SubmitCtx)
    (env : SubmitEnv) (s : CompState) (pk : String)
    (sign : Tx → Except Unit SignedTx)
    (hconn : ctx.connection = true)
    (hpk : ctx.publicKey = some pk)
    (hsign : env.signTransaction = some sign)
    (hdid : strTruthy ctx.receiverDiscordId = true)
    (_hload : s.loading = true) :
    ((onSubmit mintAddress ctx env s).1).head? =
      some (UiEvent.callDeposit (mkDepositRequest mintAddress ctx pk)) := by
  have h := onSubmitTry_head mintAddress ctx env pk sign
    (ctx.receiverDiscordId.getD "") s
  simpa [onSubmit, hconn, hpk, hsign, hdid] using h

/-- C9 witness: with every precondition satisfied and loading already true,
onSubmit still starts with the deposit call. -/
theorem onSubmit_no_reentrancy_guard_witness :
    ((onSubmit "MINT" sampleCtx sampleEnv loadingState).1).head? =
      some (UiEvent.callDeposit (mkDepositRequest "MINT" sampleCtx "PK")) :=
  onSubmit_no_reentrancy_guard "MINT" sampleCtx sampleEnv loadingState "PK"
    sampleSign rfl rfl rfl (by decide) rfl

/-! ## C10: NaN amount flows through unchecked -/

/-- Every depositInDatabase call recorded in an onSubmit trace carries
exactly the amount the component parsed from the query string. -/
theorem onSubmit_db_amount (mintAddress : String) (ctx : SubmitCtx)
    (env : SubmitEnv) (s : CompState) (r : DbRequest)
    (hmem : UiEvent.callDepositInDatabase r ∈ (onSubmit mintAddress ctx env s).1) :
    r.amount = ctx.amount := by
  unfold onSubmit at hmem
  split at hmem
  · simp at hmem
  · split at hmem
    · simp at hmem
    · unfold onSubmitTry at hmem
      cases hd : env.deposit
          (mkDepositRequest mintAddress ctx (ctx.publicKey.getD "")) with
      | error e => simp [hd] at hmem
      | ok dRes =>
          cases ht : env.transactionFrom dRes.serializedTransaction with
          | error e => simp [hd, ht] at hmem
          | ok tx =>
              cases hsg : env.signTransaction.getD (fun _ => .error ()) tx with
              | error e => simp [hd, ht, hsg] at hmem
              | ok sTx =>
                  cases he : env.execute (mkExecuteRequest dRes sTx) with
                  | error e => simp [hd, ht, hsg, he] at hmem
                  | ok eRes =>
                      cases hb : env.depositInDatabase
                          (mkDbRequest ctx.amount dRes
                            (ctx.receiverDiscordId.getD "")) with
                      | error e =>
                          simp [hd, ht, hsg, he, hb] at hmem
                          rw [hmem, mkDbRequest]
                      | ok u =>
                          simp [hd, ht, hsg, he, hb] at hmem
                          rw [hmem, mkDbRequest]

/-- C10: a non-empty amount parameter that Number() cannot parse yields a NaN
parsed amount; with a NaN amount hasBalance() returns true whatever the
stored balance, so the affordability check never disables the button; and
when onSubmit runs, the deposit request (both its amount field and its
token.amount field) and any depositInDatabase request carry that NaN
amount. -/
theorem nan_amount_flow (jsNumber : String → JSNum) (str : String)
    (mintAddress : String) (ctx : SubmitCtx) (env : SubmitEnv) (s : CompState)
    (pk : String) (sign : Tx → Except Unit SignedTx)
    (hstr : str ≠ "") (hparse : jsNumber str = JSNum.nan)
    (hconn : ctx.connection = true) (hpk : ctx.publicKey = some pk)
    (hsign : env.signTransaction = some sign)
    (hdid : strTruthy ctx.receiverDiscordId = true)
    (hamt : ctx.amount = JSNum.nan) :
    amountFromParam jsNumber (some str) = JSNum.nan ∧
    (∀ tb, hasBalance JSNum.nan tb = true) ∧
    ((onSubmit mintAddress ctx env s).1).head? =
      some (UiEvent.callDeposit (mkDepositRequest mintAddress ctx pk)) ∧
    (mkDepositRequest mintAddress ctx pk).amount = JSNum.nan ∧
    (mkDepositRequest mintAddress ctx pk).token.amount = JSNum.nan ∧
    (∀ r, UiEvent.callDepositInDatabase r ∈ (onSubmit mintAddress ctx env s).1 →
      r.amount = JSNum.nan) := by
  refine ⟨?_, hasBalance_nan, ?_, ?_, ?_, ?_⟩
  · simp [amountFromParam, hstr, hparse]
  · have h := onSubmitTry_head mintAddress ctx env pk sign
      (ctx.receiverDiscordId.getD "") s
    simpa [onSubmit, hconn, hpk, hsign, hdid] using h
  · simp [mkDepositRequest, hamt]
  · simp [mkDepositRequest, hamt]
  · intro r hr
    rw [onSubmit_db_amount mintAddress ctx env s r hr, hamt]

/-- C10 witness: the non-numeric parameter value abc at a concrete context
with every submit precondition satisfied. -/
theorem nan_amount_flow_witness :
    amountFromParam (fun _ => JSNum.nan) (some "abc") = JSNum.nan ∧
    hasBalance JSNum.nan
      (some { mint := "MINT", amount := JSNum.num 3, decimals := JSNum.num 6 })
      = true ∧
    ((onSubmit "MINT" nanCtx sampleEnv sampleState).1).head? =
      some (UiEvent.callDeposit (mkDepositRequest "MINT" nanCtx "PK")) :=
  ⟨(nan_amount_flow (fun _ => JSNum.nan) "abc" "MINT" nanCtx sampleEnv
      sampleState "PK" sampleSign (by decide) rfl rfl rfl rfl (by decide) rfl).1,
   (nan_amount_flow (fun _ => JSNum.nan) "abc" "MINT" nanCtx sampleEnv
      sampleState "PK" sampleSign (by decide) rfl rfl rfl rfl (by decide) rfl).2.1
      (some { mint := "MINT", amount := JSNum.num 3, decimals := JSNum.num 6 }),
   (nan_amount_flow (fun _ => JSNum.nan) "abc" "MINT" nanCtx sampleEnv
      sampleState "PK" sampleSign (by decide) rfl rfl rfl rfl (by decide) rfl).2.2.1⟩
